import Mathlib

/-!
Verification development for the MyHargassner proxy (Python source under
`src/myhargassner/`).  The embedding below translates, function by function,
the code paths that the specification's claims are about:

* `SocketManager.are_same_machines`, `bind_with_delta`, `send_with_delta`
  (`socket_manager.py`),
* the attribute model of `BoilerListenerSender.bind` (`boiler.py`, `core.py`),
* `Analyser.parse_request` and `Analyser.analyse_data_buffer` (`analyser.py`),
* the service1/service2 arm of `TelnetProxy.loop` and the response routing
  arm (`telnetproxy.py`),
* `GatewayListenerSender.handle_data` (`gateway.py`).

Byte strings are embedded as `List Nat` (one entry per byte); wall-clock
times (Python `time.time()` floats) are embedded as integers, which is
faithful for the order/difference comparisons the code performs.
-/

/-- Bytes of a Lean string whose characters all lie in the Latin-1 range;
used to write wire payloads literally.  For characters below 256 the
Unicode code point equals the Latin-1 byte. -/
def strBytes (s : String) : List Nat := s.toList.map Char.toNat

/-- `startsWith xs ys` : `ys` is an initial segment of `xs`
(Python `str.startswith` / `bytes.startswith`). -/
def startsWith (xs ys : List Nat) : Bool := ys.isPrefixOf xs

/-- Python `data[-2:] == b'\r\n'`: at least two bytes, the last being
`\n` (10) and the second-to-last `\r` (13). -/
def endsCRLF (xs : List Nat) : Bool :=
  match xs.reverse with
  | a :: b :: _ => a == 10 && b == 13
  | _ => false

/-- Split a byte string at every CRLF, like Python `str.split('\r\n')`
applied to the decoded text (1 byte = 1 char for the ASCII/Latin-1 data
this code decodes first).  The accumulator holds the current part in
reverse. -/
def splitCRLFAux : List Nat → List Nat → List (List Nat)
  | [], acc => [acc.reverse]
  | 13 :: 10 :: rest, acc => acc.reverse :: splitCRLFAux rest []
  | c :: rest, acc => splitCRLFAux rest (c :: acc)

/-- Python `s.split('\r\n')`. -/
def splitCRLF (xs : List Nat) : List (List Nat) := splitCRLFAux xs []

/-- Python `bytes.decode('ascii')` succeeds exactly when every byte is
below 128 (`analyser.py` line 68 decodes requests this way). -/
def decodeAsciiOk (xs : List Nat) : Bool := xs.all (· < 128)

/-! ## SocketManager (`socket_manager.py`) -/

/-- The loopback identifiers of `SocketManager.are_same_machines`
(`socket_manager.py` line 370: `localhost = {'127.0.0.1', 'localhost', '::1'}`). -/
def localhostAddrs : List String := ["127.0.0.1", "localhost", "::1"]

/-- `SocketManager.are_same_machines` (`socket_manager.py` lines 355-371):
equal identifiers, or both in the loopback set. -/
def are_same_machines (addr1 addr2 : String) : Bool :=
  if addr1 == addr2 then true
  else localhostAddrs.contains addr1 && localhostAddrs.contains addr2

/-- The interface identifiers a `SocketManager` instance is constructed
with (`socket_manager.py` `__init__`, stored as decoded strings). -/
structure SocketManager where
  src_iface : String
  dst_iface : String

/-- `SocketManager.is_same_machine` (`socket_manager.py` lines 373-380). -/
def SocketManager.is_same_machine (m : SocketManager) : Bool :=
  are_same_machines m.src_iface m.dst_iface

/-- Port actually bound by `SocketManager.bind_with_delta`
(`socket_manager.py` lines 196-240): `port + delta` when the same-machine
test holds, `port` otherwise.  The bind address choice (wildcard vs
source IP) does not affect the port. -/
def SocketManager.bind_with_delta (m : SocketManager) (port delta : Int) : Int :=
  if m.is_same_machine then port + delta else port

/-- Port actually targeted by `SocketManager.send_with_delta`
(`socket_manager.py` lines 242-289). -/
def SocketManager.send_with_delta (m : SocketManager) (port delta : Int) : Int :=
  if m.is_same_machine then port + delta else port

/-! ## BoilerListenerSender attribute model (`boiler.py`, `core.py`) -/

/-- Names resolvable on a `BoilerListenerSender` instance: every method
and attribute defined or assigned anywhere in its class hierarchy
(`BoilerListenerSender` in `boiler.py`; `ListenerSender`,
`ChanelReceiver`, `NetworkData`, `ShutdownAware` in `core.py`), as
Python's attribute lookup would search them. -/
def boilerListenerSenderAttrNames : List String :=
  -- BoilerListenerSender (boiler.py)
  ["__init__", "publish_discovery", "get_resender_port", "send",
   "discover", "bind", "handle_data", "delta", "bl_port", "bl_addr",
  -- ListenerSender (core.py)
   "_is_ip_address", "handle_first", "loop", "listen", "resend",
   "src_iface", "dst_iface", "src_ip", "dst_ip", "bound",
   "resender_bound", "listen_manager", "send_manager", "_appconfig",
  -- ChanelReceiver (core.py)
   "subscribe", "unsubscribe", "handle", "_channel", "_com", "_msq",
  -- NetworkData (core.py)
   "name", "decode_message", "gw_port", "gw_addr", "gwt_port",
  -- ShutdownAware (core.py)
   "_shutdown_requested", "is_shutdown_requested", "request_shutdown"]

/-- Python exceptions that `BoilerListenerSender.bind` / the thread's
`run` can surface. -/
inductive PyError where
  | attributeError
  | socketBindError
  deriving DecidableEq, Repr

/-- The per-instance state `bind`/`loop` read and write:
the `bound` flag of `ListenerSender` (`core.py` line 226). -/
structure BLState where
  bound : Bool
  deriving DecidableEq, Repr

/-- `BoilerListenerSender.bind` (`boiler.py` lines 103-128): when
`listen_manager.bind_with_delta` succeeds (`bindSucceeds = true`) the
method evaluates `self.setbound()`; Python resolves the name `setbound`
through the instance and its class hierarchy and raises
`AttributeError` when it is absent.  A failing `bind_with_delta` raises
`SocketBindError` instead. -/
def BoilerListenerSender.bind (bindSucceeds : Bool) (st : BLState) :
    Except PyError BLState :=
  if bindSucceeds then
    if boilerListenerSenderAttrNames.contains "setbound" then
      -- unreachable: the name never resolves in this program
      Except.ok st
    else
      Except.error PyError.attributeError
  else
    Except.error PyError.socketBindError

/-- `ListenerSender.loop` (`core.py` lines 357-366) returns immediately,
without entering its receive loop, unless `self.bound` is set.  The
returned Boolean says whether the receive loop was entered. -/
def ListenerSender.loopEntered (st : BLState) : Bool := st.bound

/-- `ThreadedBoilerListenerSender.run` after discovery (`boiler.py`
lines 162-172): `bind()` then `loop()`; an exception raised by `bind`
propagates and `loop` is never called.  Returns the final state and
whether the receive loop was entered. -/
def ThreadedBoilerListenerSender.run (bindSucceeds : Bool) (st : BLState) :
    Except PyError (BLState × Bool) :=
  match BoilerListenerSender.bind bindSucceeds st with
  | Except.error e => Except.error e
  | Except.ok st' => Except.ok (st', ListenerSender.loopEntered st')

/-! ## Analyser request classification and the TelnetProxy loop
(`analyser.py` `parse_request`, `telnetproxy.py` `loop`) -/

/-- Observable actions of the proxy, in program order: a bus publication
(`PubSub.publish(chan, payload)`, payload given as its Latin-1 bytes)
or a TCP send towards the boiler (`self._client.send(data)`). -/
inductive PEv where
  | pub (chan : String) (payload : List Nat)
  | sendBoiler (data : List Nat)
  deriving DecidableEq, Repr

/-- `Analyser.push(key, subpart)` (`analyser.py` lines 34-38): publishes
`f"{key}££{subpart}"` on the `info` channel. -/
def pushEv (key : String) (sub : List Nat) : PEv :=
  PEv.pub "info" (strBytes key ++ strBytes "££" ++ sub)

/-- Is this event a bus publication? -/
def PEv.isPub : PEv → Bool
  | PEv.pub _ _ => true
  | PEv.sendBoiler _ => false

/-- Is this event a TCP send towards the boiler? -/
def PEv.isSend : PEv → Bool
  | PEv.pub _ _ => false
  | PEv.sendBoiler _ => true

/-- One rule of the request-classification `elif` cascade of
`Analyser.parse_request`: the `startswith` pattern, the state tag it
sets, an optional publication (push key and the slice offset of the
subpart), and whether it raises `_session_end_requested`. -/
structure ReqRule where
  pat : String
  tag : String
  push : Option (String × Nat)
  sessEnd : Bool

/-- The `elif` cascade of `Analyser.parse_request` (`analyser.py` lines
71-135) as an ordered rule table; the first matching rule applies,
mirroring the cascade's top-to-bottom evaluation.  Only `$login key`
(pushes `KEY` from offset 11), `$igw set` (pushes `IGW` from offset 9)
and `$igw clear` (sets `_session_end_requested`) deviate from the plain
tag-setting shape. -/
def reqRules : List ReqRule :=
  [⟨"$login token", "$login token", none, false⟩,
   ⟨"$login key", "$login key", some ("KEY", 11), false⟩,
   ⟨"$apiversion", "$apiversion", none, false⟩,
   ⟨"$setkomm", "$setkomm", none, false⟩,
   ⟨"$asnr get", "$asnr get", none, false⟩,
   ⟨"$igw set", "$igw set", some ("IGW", 9), false⟩,
   ⟨"$igw clear", "$igw clear", none, true⟩,
   ⟨"$daq stop", "$daq stop", none, false⟩,
   ⟨"$logging disable", "$logging disable", none, false⟩,
   ⟨"$daq desc", "$daq desc", none, false⟩,
   ⟨"$daq start", "$daq start", none, false⟩,
   ⟨"$logging enable", "$logging enable", none, false⟩,
   ⟨"$bootversion", "$bootversion", none, false⟩,
   ⟨"$info", "$info", none, false⟩,
   ⟨"$uptime", "$uptime", none, false⟩,
   ⟨"$rtc get", "$rtc get", none, false⟩,
   ⟨"$par get all", "$par get all", none, false⟩,
   ⟨"$par get changed", "$par get changed", none, false⟩,
   ⟨"$par get", "$par get", none, false⟩,
   ⟨"$erract", "$erract", none, false⟩]

/-- Effect of one matched rule: set the tag, sticky-or the session-end
flag, emit the rule's publication on the current part. -/
def ruleResult (r : ReqRule) (part : List Nat) (sessionEnd : Bool) :
    String × Bool × List PEv :=
  (r.tag, sessionEnd || r.sessEnd,
    match r.push with
    | some (k, off) => [pushEv k (part.drop off)]
    | none => [])

/-- One iteration of the `for _part in _str_parts` body of
`Analyser.parse_request` (`analyser.py` lines 69-141): apply the first
matching rule of the cascade; an empty part is skipped (`pass`), and an
unrecognised part sets the `passthrough` tag. -/
def classifyPart (part : List Nat) (st : String) (sessionEnd : Bool) :
    String × Bool × List PEv :=
  match reqRules.find? (fun r => startsWith part (strBytes r.pat)) with
  | some r => ruleResult r part sessionEnd
  | none => if part = [] then (st, sessionEnd, []) else ("passthrough", sessionEnd, [])

/-- The `for` loop of `Analyser.parse_request` over the CRLF-separated
parts, accumulating the publications in emission order. -/
def parseRequestFold : List (List Nat) → String → Bool → List PEv →
    String × Bool × List PEv
  | [], st, sess, evs => (st, sess, evs)
  | p :: ps, st, sess, evs =>
      parseRequestFold ps (classifyPart p st sess).1 (classifyPart p st sess).2.1
        (evs ++ (classifyPart p st sess).2.2)

/-- `Analyser.parse_request` (`analyser.py` lines 52-143).  The request
bytes are decoded with `'ascii'` first (line 68); a byte ≥ 128 raises
`UnicodeDecodeError`, embedded as `Except.error`.  On success the parts
are classified and `(state, session_end_requested)` is returned together
with the publications made while classifying. -/
def Analyser.parse_request (data : List Nat) :
    Except Unit (String × Bool × List PEv) :=
  if decodeAsciiOk data then
    Except.ok (parseRequestFold (splitCRLF data) "" false [])
  else
    Except.error ()

/-- The `_session_end_requested` result of `parse_request` (false when
decoding raised, since the exception aborts classification). -/
def sessionEndOf (data : List Nat) : Bool :=
  match Analyser.parse_request data with
  | Except.ok (_, sess, _) => sess
  | Except.error _ => false

/-- `TelnetProxy._cleanup_and_exit` ends with `_request_restart`, which
publishes `RESTART_REQUESTED` on the `system` channel
(`telnetproxy.py` lines 370-379 and 462-502). -/
def restartEv : PEv := PEv.pub "system" (strBytes "RESTART_REQUESTED")

/-- The service1 (IGW) arm of `TelnetProxy.loop` (`telnetproxy.py`
lines 599-643) handling one `recv` result: empty data is an EOF and
triggers `_cleanup_and_exit` (trigger 2); otherwise the chunk goes to
`Analyser.parse_request` (whose publications happen here); a decode
exception is caught by the generic handler and triggers
`_cleanup_and_exit`; if `$igw clear` was detected the proxy cleans up
and returns before forwarding (trigger 1); otherwise the chunk is
forwarded to the boiler.  Returns the events in program order and
whether the loop returned. -/
def handleService1Chunk (data : List Nat) : List PEv × Bool :=
  if data = [] then ([restartEv], true)
  else
    match Analyser.parse_request data with
    | Except.error _ => ([restartEv], true)
    | Except.ok (_state, sessionEnd, evs) =>
        if sessionEnd then (evs ++ [restartEv], true)
        else (evs ++ [PEv.sendBoiler data], false)

/-- The two inbound TCP sockets of the proxy. -/
inductive Src where
  | service1
  | service2
  deriving DecidableEq, Repr

/-- One readiness event of `TelnetProxy.loop` on an inbound socket:
the service1 arm as above; the service2 (auxiliary) arm
(`telnetproxy.py` lines 644-665) exits on empty data and otherwise
forwards the chunk to the boiler without analysis. -/
def handleChunk : Src × List Nat → List PEv × Bool
  | (Src.service1, d) => handleService1Chunk d
  | (Src.service2, d) =>
      if d = [] then ([restartEv], true) else ([PEv.sendBoiler d], false)

/-- `TelnetProxy.loop` restricted to inbound readiness events: process
chunks in arrival order, stopping at the first one that makes the loop
return. -/
def TelnetProxy.runLoop : List (Src × List Nat) → List PEv
  | [] => []
  | c :: rest =>
      if (handleChunk c).2 then (handleChunk c).1
      else (handleChunk c).1 ++ TelnetProxy.runLoop rest

/-- Number of `RESTART_REQUESTED` publications in a trace. -/
def countRestarts (tr : List PEv) : Nat := tr.count restartEv

/-- Claim C1's ordering property on a trace: every send to the boiler
precedes every bus publication. -/
def ForwardBeforePubs (tr : List PEv) : Prop :=
  ∀ i j : Fin tr.length,
    (tr.get i).isSend = true → (tr.get j).isPub = true → (i : Nat) < j

instance (tr : List PEv) : Decidable (ForwardBeforePubs tr) := by
  unfold ForwardBeforePubs; infer_instance

/-- A `$login key` request chunk as the IGW sends it. -/
def loginKeyChunk : List Nat := strBytes "$login key 137171BD\r\n"

/-- The `$igw clear` session-end request chunk. -/
def igwClearChunk : List Nat := strBytes "$igw clear\r\n"

/-- A `$login token` request chunk. -/
def loginTokenChunk : List Nat := strBytes "$login token\r\n"

/-! ## Analyser response reassembly (`analyser.py` `analyse_data_buffer`) -/

/-- `Analyser.is_pm_response` (`analyser.py` lines 40-44): more than one
byte and the first two bytes are `pm` (112, 109). -/
def Analyser.is_pm_response (data : List Nat) : Bool :=
  match data with
  | 112 :: 109 :: _ => true
  | _ => false

/-- `Analyser.is_daq_desc` (`analyser.py` lines 46-50): more than four
bytes and the first four bytes are `$<<<` (36, 60, 60, 60). -/
def Analyser.is_daq_desc (buffer : List Nat) : Bool :=
  match buffer with
  | 36 :: 60 :: 60 :: 60 :: _ :: _ => true
  | _ => false

/-- The `_mode` string threaded between `TelnetProxy.loop` and
`Analyser.analyse_data_buffer`: `''` (normal), `'pm'` (streaming) or
`'buffer'` (assembling a normal response). -/
inductive Mode where
  | normal
  | pm
  | buf
  deriving DecidableEq, Repr

/-- The `Analyser` instance fields `analyse_data_buffer` reads and
writes: `_pmstamp` (0.0 until a first streaming frame is accepted,
then the acceptance time) and `_pm` (the streaming accumulation
buffer).  `time.time()` values are embedded as integers, which is
faithful for the `== 0`, subtraction and `>` operations performed. -/
structure PmState where
  pmstamp : Int
  pm : List Nat
  deriving DecidableEq, Repr

/-- Observable effects of `analyse_data_buffer`, in program order:
`self.analyse_pm(frame)` invoked on an accepted streaming frame, or
`publish("track", buffer.decode('latin-1'))` for a complete
non-streaming response (payload kept as the buffer bytes, since
Latin-1 decoding is a bijection between bytes and code points). -/
inductive AEv where
  | parsePm (frame : List Nat)
  | track (payload : List Nat)
  deriving DecidableEq, Repr

/-- Result of one `analyse_data_buffer` call: the updated instance
state, the returned `(buffer, mode, state, login_done,
session_end_complete)` tuple, and the events of the call. -/
structure ADB where
  st : PmState
  buffer : List Nat
  mode : Mode
  state : String
  login : Bool
  sessEnd : Bool
  events : List AEv
  deriving DecidableEq, Repr

/-- `Analyser.analyse_data_buffer` (`analyser.py` lines 312-379).
`prb` abstracts the callee `Analyser._parse_response_buffer` (invoked
once on each complete non-daq buffer; returns the new state tag,
`login_done` and `session_end_complete`); `now` is the value
`time.time()` returns during this call and `scan` is
`self.config.scan`. -/
def Analyser.analyse_data_buffer
    (prb : String → List Nat → Bool → String × Bool × Bool)
    (now scan : Int) (st : PmState) (data buffer : List Nat)
    (mode : Mode) (state : String) (sessionEndRequested : Bool) : ADB :=
  let mode1 := if Analyser.is_pm_response data then Mode.pm else mode
  if mode1 = Mode.pm then
    if endsCRLF data then
      if st.pmstamp = 0 ∨ now - st.pmstamp > scan then
        { st := { pmstamp := now, pm := data },
          buffer := buffer, mode := Mode.normal, state := state,
          login := false, sessEnd := false, events := [AEv.parsePm data] }
      else
        { st := st, buffer := buffer, mode := Mode.normal, state := state,
          login := false, sessEnd := false, events := [] }
    else
      { st := { st with pm := st.pm ++ data },
        buffer := buffer, mode := Mode.pm, state := state,
        login := false, sessEnd := false, events := [] }
  else
    let mode2 := if endsCRLF data then mode1 else Mode.buf
    let buffer1 := if mode2 = Mode.buf then buffer ++ data else data
    if endsCRLF buffer1 then
      if Analyser.is_daq_desc buffer1 then
        { st := st, buffer := [], mode := Mode.normal, state := "",
          login := false, sessEnd := false, events := [] }
      else
        { st := st, buffer := [], mode := Mode.normal,
          state := (prb state buffer1 sessionEndRequested).1,
          login := (prb state buffer1 sessionEndRequested).2.1,
          sessEnd := (prb state buffer1 sessionEndRequested).2.2,
          events := [AEv.track buffer1] }
    else
      { st := st, buffer := buffer1, mode := mode2, state := state,
        login := false, sessEnd := false, events := [] }

/-- Feed successive boiler reads through `analyse_data_buffer` the way
`TelnetProxy.loop` does: thread `_buffer`, `_mode`, `_state` and the
analyser instance state through the calls, tagging each call with its
`time.time()` value (`sessionEndRequested` stays false, the steady
state before any `$igw clear`); collect the events with their times. -/
def feedChunks (prb : String → List Nat → Bool → String × Bool × Bool)
    (scan : Int) :
    PmState → List Nat → Mode → String → List (Int × List Nat) →
    (PmState × List Nat × Mode × String) × List (Int × AEv)
  | st, buffer, mode, state, [] => ((st, buffer, mode, state), [])
  | st, buffer, mode, state, (t, d) :: rest =>
      let r := Analyser.analyse_data_buffer prb t scan st d buffer mode state false
      let k := feedChunks prb scan r.st r.buffer r.mode r.state rest
      (k.1, r.events.map (fun e => (t, e)) ++ k.2)

/-- The accepted streaming frames of an event trace: the `analyse_pm`
invocations with their times. -/
def pmAccepts (evs : List (Int × AEv)) : List (Int × List Nat) :=
  evs.filterMap (fun p =>
    match p.2 with
    | AEv.parsePm f => some (p.1, f)
    | AEv.track _ => none)

/-- A concrete instantiation of the abstracted
`_parse_response_buffer` callee, used to evaluate the embedding at
closed inputs (the streaming path never invokes the callee). -/
def prbNone : String → List Nat → Bool → String × Bool × Bool :=
  fun s _ _ => (s, false, false)

/-- A full streaming telemetry frame arriving in one read. -/
def pmFullFrame : List Nat := strBytes "pm 1 2 3\r\n"

/-- Ten full pm frames at 100 ms intervals starting at t = 1000. -/
def c7Frames : List (Int × List Nat) :=
  (List.range 10).map (fun k => ((1000 + 100 * (k : Int)), pmFullFrame))

/-- First half of a split pm frame: starts with the marker, no CRLF. -/
def c4Chunk1 : List Nat := strBytes "pm 1 2"

/-- Second half of a split pm frame: supplies the terminating CRLF. -/
def c4Chunk2 : List Nat := strBytes " 3\r\n"

/-! ## Boiler-response routing (`telnetproxy.py` lines 693-715) -/

/-- The two service sockets a boiler chunk can be relayed to. -/
inductive Dest where
  | service1
  | service2
  deriving DecidableEq, Repr

/-- The response-routing arm of `TelnetProxy.loop` (`telnetproxy.py`
lines 693-715), as the ordered list of destinations one boiler chunk is
sent to: a chunk starting with `pm` goes to service1 (when its socket
exists); otherwise `_caller = 1` routes to service1, `_caller = 2`
routes to service2 and then also to service1 ("send also to the IGW to
inform about changes"), and an unregistered caller falls back to
service1 when available. -/
def routeResponse (hasService1 : Bool) (data : List Nat) (caller : Nat) :
    List Dest :=
  if startsWith data (strBytes "pm") then
    if hasService1 then [Dest.service1] else []
  else if caller = 1 then [Dest.service1]
  else if caller = 2 then [Dest.service2, Dest.service1]
  else if hasService1 then [Dest.service1] else []

/-! ## Gateway UDP payload handling (`gateway.py` `handle_data`) -/

/-- A UTF-8 continuation byte (`10xxxxxx`). -/
def utf8Cont (b : Nat) : Bool := 128 ≤ b && b ≤ 191

/-- Strict UTF-8 decoding of a byte string into characters, as Python's
default `bytes.decode()` performs it (RFC 3629 ranges; overlong forms
and surrogates rejected).  `none` models `UnicodeDecodeError`. -/
def decodeUtf8 : List Nat → Option (List Char)
  | [] => some []
  | b :: rest =>
    if b < 128 then
      (decodeUtf8 rest).map (fun cs => Char.ofNat b :: cs)
    else if 194 ≤ b && b ≤ 223 then
      match rest with
      | c1 :: rest2 =>
          if utf8Cont c1 then
            (decodeUtf8 rest2).map (fun cs =>
              Char.ofNat ((b - 192) * 64 + (c1 - 128)) :: cs)
          else none
      | [] => none
    else if b = 224 then
      match rest with
      | c1 :: c2 :: rest2 =>
          if (160 ≤ c1 && c1 ≤ 191) && utf8Cont c2 then
            (decodeUtf8 rest2).map (fun cs =>
              Char.ofNat ((b - 224) * 4096 + (c1 - 128) * 64 + (c2 - 128)) :: cs)
          else none
      | _ => none
    else if (225 ≤ b && b ≤ 236) || b = 238 || b = 239 then
      match rest with
      | c1 :: c2 :: rest2 =>
          if utf8Cont c1 && utf8Cont c2 then
            (decodeUtf8 rest2).map (fun cs =>
              Char.ofNat ((b - 224) * 4096 + (c1 - 128) * 64 + (c2 - 128)) :: cs)
          else none
      | _ => none
    else if b = 237 then
      match rest with
      | c1 :: c2 :: rest2 =>
          if (128 ≤ c1 && c1 ≤ 159) && utf8Cont c2 then
            (decodeUtf8 rest2).map (fun cs =>
              Char.ofNat ((b - 224) * 4096 + (c1 - 128) * 64 + (c2 - 128)) :: cs)
          else none
      | _ => none
    else if b = 240 then
      match rest with
      | c1 :: c2 :: c3 :: rest2 =>
          if (144 ≤ c1 && c1 ≤ 191) && utf8Cont c2 && utf8Cont c3 then
            (decodeUtf8 rest2).map (fun cs =>
              Char.ofNat ((b - 240) * 262144 + (c1 - 128) * 4096 +
                (c2 - 128) * 64 + (c3 - 128)) :: cs)
          else none
      | _ => none
    else if 241 ≤ b && b ≤ 243 then
      match rest with
      | c1 :: c2 :: c3 :: rest2 =>
          if utf8Cont c1 && utf8Cont c2 && utf8Cont c3 then
            (decodeUtf8 rest2).map (fun cs =>
              Char.ofNat ((b - 240) * 262144 + (c1 - 128) * 4096 +
                (c2 - 128) * 64 + (c3 - 128)) :: cs)
          else none
      | _ => none
    else if b = 244 then
      match rest with
      | c1 :: c2 :: c3 :: rest2 =>
          if (128 ≤ c1 && c1 ≤ 143) && utf8Cont c2 && utf8Cont c3 then
            (decodeUtf8 rest2).map (fun cs =>
              Char.ofNat ((b - 240) * 262144 + (c1 - 128) * 4096 +
                (c2 - 128) * 64 + (c3 - 128)) :: cs)
          else none
      | _ => none
    else none

/-- `str.split('\r\n')` on decoded characters (accumulator holds the
current part in reverse). -/
def splitCRLFCharsAux : List Char → List Char → List (List Char)
  | [], acc => [acc.reverse]
  | '\r' :: '\n' :: rest, acc => acc.reverse :: splitCRLFCharsAux rest []
  | c :: rest, acc => splitCRLFCharsAux rest (c :: acc)

/-- Python `s.split('\r\n')` on characters. -/
def splitCRLFChars (cs : List Char) : List (List Char) := splitCRLFCharsAux cs []

/-- `str.startswith` on characters. -/
def charsStartWith (xs ys : List Char) : Bool := ys.isPrefixOf xs

/-- A gateway-side bus publication (payload as decoded characters). -/
inductive GEv where
  | pub (chan : String) (payload : List Char)
  deriving DecidableEq, Repr

/-- `GatewayListenerSender.handle_data` (`gateway.py` lines 127-152):
the datagram is decoded with Python's default UTF-8 codec (`data.decode()`,
lines 138 and 140); a decode failure raises `UnicodeDecodeError`
(`Except.error`).  On success the text is split at CRLF and each part
starting with `HargaWebApp` publishes the version from offset 13, each
part starting with `SN:` publishes the serial from offset 3, on the
`bootstrap` channel. -/
def GatewayListenerSender.handle_data (data : List Nat) : Except Unit (List GEv) :=
  match decodeUtf8 data with
  | none => Except.error ()
  | some cs =>
      Except.ok ((splitCRLFChars cs).foldl (fun evs part =>
        evs ++
        (if charsStartWith part ("HargaWebApp".toList) then
          [GEv.pub "bootstrap" ("HargaWebApp££".toList ++ part.drop 13)]
         else []) ++
        (if charsStartWith part ("SN:".toList) then
          [GEv.pub "bootstrap" ("SN££".toList ++ part.drop 3)]
         else [])) [])

/-! ## Theorems -/

/-- Membership in the loopback set agrees with the Boolean `contains`
test the code performs. -/
theorem localhost_contains_iff (s : String) :
    localhostAddrs.contains s = true ↔ s ∈ localhostAddrs :=
  List.elem_iff

/-- Claim C10: `bind_with_delta` binds to `port + delta`, and
`send_with_delta` sends to `port + delta`, exactly when source and
destination are detected to be the same host, and to the unadjusted port
otherwise; and the same-host detection holds iff the identifiers compare
equal or both are loopback identifiers. -/
theorem c10_delta_ports (m : SocketManager) (port delta : Int) :
    (m.is_same_machine = true ↔
      (m.src_iface = m.dst_iface ∨
        (m.src_iface ∈ localhostAddrs ∧ m.dst_iface ∈ localhostAddrs))) ∧
    (m.is_same_machine = true →
      m.bind_with_delta port delta = port + delta ∧
      m.send_with_delta port delta = port + delta) ∧
    (m.is_same_machine = false →
      m.bind_with_delta port delta = port ∧
      m.send_with_delta port delta = port) := by
  refine ⟨?_, ?_, ?_⟩
  · unfold SocketManager.is_same_machine are_same_machines
    constructor
    · intro h
      by_cases he : m.src_iface = m.dst_iface
      · exact Or.inl he
      · have hb : (m.src_iface == m.dst_iface) = false := by simp [he]
        simp only [hb, Bool.false_eq_true, if_false, Bool.and_eq_true] at h
        exact Or.inr ⟨(localhost_contains_iff _).mp h.1,
          (localhost_contains_iff _).mp h.2⟩
    · rintro (he | ⟨h1, h2⟩)
      · simp [he]
      · by_cases he : m.src_iface = m.dst_iface
        · simp [he]
        · have hb : (m.src_iface == m.dst_iface) = false := by simp [he]
          simp [hb, (localhost_contains_iff _).mpr h1,
            (localhost_contains_iff _).mpr h2, h1, h2]
  · intro h
    constructor <;> simp [SocketManager.bind_with_delta, SocketManager.send_with_delta, h]
  · intro h
    constructor <;> simp [SocketManager.bind_with_delta, SocketManager.send_with_delta, h]

/-- Witness for C10 at a concrete instance: both identifiers loopback
(but unequal), port 23, delta 100: bind and send target port 123. -/
theorem c10_delta_ports_witness :
    (SocketManager.mk "127.0.0.1" "localhost").bind_with_delta 23 100 = 123 ∧
    (SocketManager.mk "127.0.0.1" "localhost").send_with_delta 23 100 = 123 :=
  (c10_delta_ports (SocketManager.mk "127.0.0.1" "localhost") 23 100).2.1 (by decide)

/-- Appending on the left preserves a terminating CRLF. -/
theorem endsCRLF_append (a b : List Nat) (h : endsCRLF b = true) :
    endsCRLF (a ++ b) = true := by
  unfold endsCRLF at h ⊢
  rw [List.reverse_append]
  cases hb : b.reverse with
  | nil => rw [hb] at h; cases h
  | cons x t =>
      cases t with
      | nil => rw [hb] at h; cases h
      | cons y r =>
          rw [hb] at h
          simpa using h

/-- `pmAccepts` distributes over trace concatenation. -/
theorem pmAccepts_append (xs ys : List (Int × AEv)) :
    pmAccepts (xs ++ ys) = pmAccepts xs ++ pmAccepts ys := by
  unfold pmAccepts
  exact List.filterMap_append _ _ _

/-- Every publication `classifyPart` emits goes to the `info` channel
(they all come from `Analyser.push`). -/
theorem classifyPart_pubs (p : List Nat) (st : String) (sess : Bool) :
    ∀ e ∈ (classifyPart p st sess).2.2, ∃ q, e = PEv.pub "info" q := by
  intro e he
  unfold classifyPart at he
  cases hf : reqRules.find? (fun r => startsWith p (strBytes r.pat)) with
  | none =>
      rw [hf] at he
      by_cases hp : p = [] <;> simp [hp] at he
  | some r =>
      rw [hf] at he
      dsimp only at he
      unfold ruleResult at he
      cases hpu : r.push with
      | none => rw [hpu] at he; cases he
      | some ko =>
          obtain ⟨k, off⟩ := ko
          rw [hpu] at he
          dsimp only at he
          rcases List.mem_singleton.mp he with rfl
          exact ⟨_, rfl⟩

/-- Every publication accumulated by the classification fold goes to the
`info` channel, given that the already-accumulated ones do. -/
theorem parseRequestFold_pubs (ps : List (List Nat)) :
    ∀ st sess evs0,
      (∀ e ∈ evs0, ∃ q, e = PEv.pub "info" q) →
      ∀ e ∈ (parseRequestFold ps st sess evs0).2.2, ∃ q, e = PEv.pub "info" q := by
  induction ps with
  | nil => intro st sess evs0 h e he; exact h e he
  | cons p ps ih =>
      intro st sess evs0 h e he
      refine ih _ _ _ (fun x hx => ?_) e he
      rcases List.mem_append.mp hx with h1 | h2
      · exact h x h1
      · exact classifyPart_pubs p st sess x h2

/-- Every publication `Analyser.parse_request` makes while classifying a
request goes to the `info` channel. -/
theorem parse_request_pubs_info {data : List Nat} {st : String}
    {sess : Bool} {evs : List PEv}
    (h : Analyser.parse_request data = Except.ok (st, sess, evs)) :
    ∀ e ∈ evs, ∃ q, e = PEv.pub "info" q := by
  unfold Analyser.parse_request at h
  by_cases hd : decodeAsciiOk data
  · rw [if_pos hd] at h
    have h' := Except.ok.inj h
    have hevs : evs = (parseRequestFold (splitCRLF data) "" false []).2.2 := by
      rw [h']
    rw [hevs]
    exact parseRequestFold_pubs _ _ _ _ (by intro e he; cases he)
  · rw [if_neg hd] at h
    cases h

/-- `RESTART_REQUESTED` is never among the classification publications:
those go to `info`, the restart goes to `system`. -/
theorem restart_not_mem_parse_evs {data : List Nat} {st : String}
    {sess : Bool} {evs : List PEv}
    (hp : Analyser.parse_request data = Except.ok (st, sess, evs)) :
    restartEv ∉ evs := by
  intro hmem
  rcases parse_request_pubs_info hp _ hmem with ⟨q, hq⟩
  rw [restartEv] at hq
  injection hq with h1 _
  exact absurd h1 (by decide)

/-- Claim C1 (counterexample): for the `$login key` chunk, the extracted
KEY value is published on the bus strictly before the chunk is forwarded
to the boiler, so the chunk is not forwarded before the state update. -/
theorem c1_counterexample :
    (handleService1Chunk loginKeyChunk).1 =
      [PEv.pub "info" (strBytes "KEY££137171BD"),
       PEv.sendBoiler loginKeyChunk] ∧
    ¬ ForwardBeforePubs (handleService1Chunk loginKeyChunk).1 :=
  ⟨by rfl, by decide⟩

/-- Claim C1 (amended): for every nonempty IGW chunk whose
classification succeeds without requesting session end, the
publications derived from the chunk come first and the chunk is then
forwarded to the boiler in its entirety, as the single final event. -/
theorem c1_pubs_then_forward (data : List Nat) (st : String) (evs : List PEv)
    (hne : data ≠ [])
    (hp : Analyser.parse_request data = Except.ok (st, false, evs)) :
    handleService1Chunk data = (evs ++ [PEv.sendBoiler data], false) ∧
    ∀ e ∈ evs, PEv.isPub e = true := by
  constructor
  · unfold handleService1Chunk
    simp [hne, hp]
  · intro e he
    rcases parse_request_pubs_info hp e he with ⟨q, rfl⟩
    rfl

/-- Witness for the amended C1 at the `$login key` chunk. -/
theorem c1_pubs_then_forward_witness :
    handleService1Chunk loginKeyChunk =
      ([PEv.pub "info" (strBytes "KEY££137171BD"),
        PEv.sendBoiler loginKeyChunk], false) := by
  have h := c1_pubs_then_forward loginKeyChunk "$login key"
    [PEv.pub "info" (strBytes "KEY££137171BD")] (by decide) (by rfl)
  simpa using h.1

/-- Claim C3 (counterexample): the `$igw clear` chunk is not forwarded
to the boiler at all — the proxy publishes the restart request and
returns before the forwarding step. -/
theorem c3_counterexample :
    handleService1Chunk igwClearChunk = ([restartEv], true) ∧
    PEv.sendBoiler igwClearChunk ∉ (handleService1Chunk igwClearChunk).1 :=
  ⟨by rfl, by decide⟩

/-- Claim C3 (amended): when the Analyser classifies an IGW chunk as the
`$igw clear` session-end request, `TelnetProxy.loop` publishes
`RESTART_REQUESTED` and returns immediately, without forwarding the
chunk to the boiler and without waiting for the boiler's
acknowledgement: no event of the handling is a send to the boiler. -/
theorem c3_exit_without_forward (data : List Nat) (st : String) (evs : List PEv)
    (hne : data ≠ [])
    (hp : Analyser.parse_request data = Except.ok (st, true, evs)) :
    handleService1Chunk data = (evs ++ [restartEv], true) ∧
    ∀ e ∈ evs ++ [restartEv], PEv.isSend e = false := by
  constructor
  · unfold handleService1Chunk
    simp [hne, hp]
  · intro e he
    rcases List.mem_append.mp he with h1 | h2
    · rcases parse_request_pubs_info hp e h1 with ⟨q, rfl⟩
      rfl
    · rcases List.mem_singleton.mp h2 with rfl
      rfl

/-- Witness for the amended C3 at the `$igw clear` chunk. -/
theorem c3_exit_without_forward_witness :
    handleService1Chunk igwClearChunk = ([restartEv], true) := by
  have h := c3_exit_without_forward igwClearChunk "$igw clear" []
    (by decide) (by rfl)
  simpa using h.1

/-- A loop iteration that does not make the loop return publishes no
`RESTART_REQUESTED`. -/
theorem countRestarts_handleChunk_noexit (c : Src × List Nat)
    (h : (handleChunk c).2 = false) : countRestarts (handleChunk c).1 = 0 := by
  obtain ⟨src, d⟩ := c
  cases src with
  | service2 =>
      by_cases hd : d = []
      · simp [handleChunk, hd] at h
      · have heq : handleChunk (Src.service2, d) = ([PEv.sendBoiler d], false) := by
          simp [handleChunk, hd]
        rw [heq]
        unfold countRestarts
        exact List.count_eq_zero.mpr (by simp [restartEv])
  | service1 =>
      by_cases hd : d = []
      · simp [handleChunk, handleService1Chunk, hd] at h
      · cases hp : Analyser.parse_request d with
        | error e => simp [handleChunk, handleService1Chunk, hd, hp] at h
        | ok r =>
            obtain ⟨st, sess, evs⟩ := r
            cases sess with
            | true => simp [handleChunk, handleService1Chunk, hd, hp] at h
            | false =>
                have heq : handleChunk (Src.service1, d) =
                    (evs ++ [PEv.sendBoiler d], false) := by
                  simp [handleChunk, handleService1Chunk, hd, hp]
                rw [heq]
                unfold countRestarts
                rw [List.count_append,
                  List.count_eq_zero.mpr (restart_not_mem_parse_evs hp),
                  List.count_eq_zero.mpr
                    (show restartEv ∉ [PEv.sendBoiler d] by simp [restartEv])]

/-- Claim C5: whether the session ends through `$igw clear` on the IGW
socket or through EOF on either inbound TCP socket, exactly one
`RESTART_REQUESTED` is published on the `system` channel before the
loop returns. -/
theorem c5_exactly_one_restart (pre : List (Src × List Nat))
    (c : Src × List Nat)
    (hpre : ∀ x ∈ pre, (handleChunk x).2 = false)
    (hlast : c.2 = [] ∨ (c.1 = Src.service1 ∧ sessionEndOf c.2 = true)) :
    countRestarts (TelnetProxy.runLoop (pre ++ [c])) = 1 := by
  induction pre with
  | nil =>
      simp only [List.nil_append]
      obtain ⟨src, d⟩ := c
      rcases hlast with hd | ⟨hs, hsess⟩
      · simp only at hd
        subst hd
        cases src <;> decide
      · simp only at hs
        subst hs
        have hd : d ≠ [] := by
          intro h0
          rw [h0] at hsess
          exact absurd hsess (by decide)
        unfold sessionEndOf at hsess
        cases hp : Analyser.parse_request d with
        | error e => rw [hp] at hsess; cases hsess
        | ok r =>
            obtain ⟨st, sess, evs⟩ := r
            rw [hp] at hsess
            simp only at hsess
            subst hsess
            have heq : TelnetProxy.runLoop [(Src.service1, d)] =
                evs ++ [restartEv] := by
              simp [TelnetProxy.runLoop, handleChunk, handleService1Chunk,
                hd, hp]
            rw [heq]
            unfold countRestarts
            rw [List.count_append,
              List.count_eq_zero.mpr (restart_not_mem_parse_evs hp)]
            simp
  | cons x xs ih =>
      have hx := hpre x (List.mem_cons_self x xs)
      have hxs : ∀ y ∈ xs, (handleChunk y).2 = false :=
        fun y hy => hpre y (List.mem_cons_of_mem x hy)
      simp only [List.cons_append, TelnetProxy.runLoop]
      rw [if_neg (by simp [hx])]
      unfold countRestarts
      rw [List.count_append]
      have h1 := countRestarts_handleChunk_noexit x hx
      unfold countRestarts at h1
      have h2 := ih hxs
      unfold countRestarts at h2
      simp only [List.append_eq]
      rw [h1, h2]

/-- Witness for C5: one non-exiting request then EOF on the IGW socket:
exactly one restart request in the trace. -/
theorem c5_exactly_one_restart_witness :
    countRestarts (TelnetProxy.runLoop
      [(Src.service1, loginTokenChunk), (Src.service1, [])]) = 1 := by
  have h := c5_exactly_one_restart [(Src.service1, loginTokenChunk)]
    (Src.service1, []) (by decide) (Or.inl rfl)
  simpa using h

/-- Claim C2: no class in the program defines a `setbound` method, so a
call to `BoilerListenerSender.bind` in which `bind_with_delta` succeeds
raises `AttributeError`; consequently the `bound` flag is never set and
the receive loop is never entered. -/
theorem c2_setbound_attribute_error (st : BLState) :
    boilerListenerSenderAttrNames.contains "setbound" = false ∧
    BoilerListenerSender.bind true st = Except.error PyError.attributeError ∧
    ThreadedBoilerListenerSender.run true st = Except.error PyError.attributeError ∧
    (∀ st' entered, ThreadedBoilerListenerSender.run true st ≠
      Except.ok (st', entered)) := by
  have hc : boilerListenerSenderAttrNames.contains "setbound" = false := by decide
  have hm : "setbound" ∉ boilerListenerSenderAttrNames := by decide
  have hb : BoilerListenerSender.bind true st = Except.error PyError.attributeError := by
    simp [BoilerListenerSender.bind, hm]
  refine ⟨hc, hb, ?_, ?_⟩
  · simp [ThreadedBoilerListenerSender.run, hb]
  · intro st' entered
    simp [ThreadedBoilerListenerSender.run, hb]

/-- Claim C6: the Analyser publishes on the `track` channel only a
buffer that ends with CRLF, and the working buffer is reset to empty
whenever a `track` publication happens; moreover a normal-mode response
arriving in two reads, the first without its terminating CRLF and the
second supplying it, is published as the exact concatenation of the two
reads, with the working buffer empty afterwards. -/
theorem c6_track_reassembly :
    (∀ prb now scan (st : PmState) (data buffer : List Nat) (mode : Mode)
        (state : String) (sessReq : Bool) (p : List Nat),
      AEv.track p ∈ (Analyser.analyse_data_buffer prb now scan st data buffer
          mode state sessReq).events →
      endsCRLF p = true ∧
      (Analyser.analyse_data_buffer prb now scan st data buffer
          mode state sessReq).buffer = []) ∧
    (∀ prb t1 t2 scan (st : PmState) (part1 part2 : List Nat) (state : String),
      Analyser.is_pm_response part1 = false →
      Analyser.is_pm_response part2 = false →
      endsCRLF part1 = false →
      endsCRLF part2 = true →
      Analyser.is_daq_desc (part1 ++ part2) = false →
      (feedChunks prb scan st [] Mode.normal state
          [(t1, part1), (t2, part2)]).2 =
        [(t2, AEv.track (part1 ++ part2))] ∧
      (feedChunks prb scan st [] Mode.normal state
          [(t1, part1), (t2, part2)]).1.2.1 = []) := by
  constructor
  · intro prb now scan st data buffer mode state sessReq p h
    unfold Analyser.analyse_data_buffer at h ⊢
    by_cases hpm : Analyser.is_pm_response data = true
    · simp only [hpm, if_true] at h
      split_ifs at h <;> simp at h
    · rw [Bool.not_eq_true] at hpm
      by_cases hm : mode = Mode.pm
      · simp only [hpm, Bool.false_eq_true, if_false, hm, if_true] at h
        split_ifs at h <;> simp at h
      · simp only [hpm, Bool.false_eq_true, if_false, hm] at h ⊢
        split_ifs at h ⊢ <;>
          first
            | (have hpq := List.mem_singleton.mp h
               injection hpq with hpq
               subst hpq
               exact ⟨by assumption, rfl⟩)
            | simp at h
  · intro prb t1 t2 scan st part1 part2 state hp1 hp2 h1 h2 hd
    have hcb : endsCRLF (part1 ++ part2) = true := endsCRLF_append _ _ h2
    have e1 : Analyser.analyse_data_buffer prb t1 scan st part1 []
        Mode.normal state false =
        ⟨st, part1, Mode.buf, state, false, false, []⟩ := by
      unfold Analyser.analyse_data_buffer
      simp [hp1, h1]
    have e2 : Analyser.analyse_data_buffer prb t2 scan st part2 part1
        Mode.buf state false =
        ⟨st, [], Mode.normal, (prb state (part1 ++ part2) false).1,
          (prb state (part1 ++ part2) false).2.1,
          (prb state (part1 ++ part2) false).2.2,
          [AEv.track (part1 ++ part2)]⟩ := by
      unfold Analyser.analyse_data_buffer
      simp [hp2, h2, hcb, hd]
    constructor
    · simp [feedChunks, e1, e2]
    · simp [feedChunks, e1, e2]

/-- Witness for C6 at a concrete split response `abc\r` then
`\ndef\r\n` (the CRLF itself straddles the read boundary). -/
theorem c6_track_reassembly_witness :
    (feedChunks prbNone 500 ⟨0, []⟩ [] Mode.normal ""
        [(1, strBytes "abc\r"), (2, strBytes "\ndef\r\n")]).2 =
      [(2, AEv.track (strBytes "abc\r" ++ strBytes "\ndef\r\n"))] ∧
    (feedChunks prbNone 500 ⟨0, []⟩ [] Mode.normal ""
        [(1, strBytes "abc\r"), (2, strBytes "\ndef\r\n")]).1.2.1 = [] :=
  c6_track_reassembly.2 prbNone 1 2 500 ⟨0, []⟩ (strBytes "abc\r")
    (strBytes "\ndef\r\n") "" (by decide) (by decide) (by decide) (by decide)
    (by decide)

/-- Claim C4 (evaluation at the failing input): a pm frame split into
`pm 1 2` then ` 3\r\n` does complete on the later read, and the first
chunk is accumulated into `self._pm`, but the acceptance branch
overwrites `self._pm` with the later chunk, so the frame handed to
`analyse_pm` is the second chunk alone, not the concatenation of the
two chunks. -/
theorem c4_split_pm_frame :
    (Analyser.analyse_data_buffer prbNone 1000 500 ⟨0, []⟩ c4Chunk1 []
        Mode.normal "" false).st.pm = c4Chunk1 ∧
    (feedChunks prbNone 500 ⟨0, []⟩ [] Mode.normal ""
        [(1000, c4Chunk1), (1100, c4Chunk2)]).2 =
      [(1100, AEv.parsePm c4Chunk2)] ∧
    c4Chunk2 ≠ c4Chunk1 ++ c4Chunk2 :=
  ⟨by decide, by decide, by decide⟩

/-- Streaming acceptance chain: feeding full pm frames through
`analyse_data_buffer`, the accepted frames form a chain whose
consecutive acceptance times differ by more than the scan period, and
the first acceptance satisfies the gate condition of the incoming
state. -/
theorem feedChunks_pm_chain
    (prb : String → List Nat → Bool → String × Bool × Bool) (scan : Int) :
    ∀ (frames : List (Int × List Nat)) (st : PmState) (buffer : List Nat)
      (state : String),
      (∀ p ∈ frames, Analyser.is_pm_response p.2 = true ∧ endsCRLF p.2 = true) →
      (∀ p ∈ frames, 0 < p.1) →
      List.Chain' (fun a b => b.1 - a.1 > scan)
        (pmAccepts (feedChunks prb scan st buffer Mode.normal state frames).2) ∧
      (∀ a ∈ (pmAccepts
          (feedChunks prb scan st buffer Mode.normal state frames).2).head?,
        st.pmstamp = 0 ∨ a.1 - st.pmstamp > scan) := by
  intro frames
  induction frames with
  | nil =>
      intro st buffer state hf ht
      constructor
      · simp [feedChunks, pmAccepts]
      · simp [feedChunks, pmAccepts]
  | cons q rest ih =>
      obtain ⟨t, d⟩ := q
      intro st buffer state hf ht
      have hd := hf (t, d) (List.mem_cons_self _ _)
      have htd : (0 : Int) < t := ht (t, d) (List.mem_cons_self _ _)
      have hfr : ∀ p ∈ rest, Analyser.is_pm_response p.2 = true ∧
          endsCRLF p.2 = true := fun p hp => hf p (List.mem_cons_of_mem _ hp)
      have htr : ∀ p ∈ rest, 0 < p.1 := fun p hp => ht p (List.mem_cons_of_mem _ hp)
      by_cases hg : st.pmstamp = 0 ∨ t - st.pmstamp > scan
      · have e1 : Analyser.analyse_data_buffer prb t scan st d buffer
            Mode.normal state false =
            ⟨⟨t, d⟩, buffer, Mode.normal, state, false, false,
              [AEv.parsePm d]⟩ := by
          unfold Analyser.analyse_data_buffer
          simp [hd.1, hd.2, hg]
        have e2 : pmAccepts (feedChunks prb scan st buffer Mode.normal state
              ((t, d) :: rest)).2 =
            (t, d) :: pmAccepts (feedChunks prb scan ⟨t, d⟩ buffer Mode.normal
              state rest).2 := by
          simp [feedChunks, e1, pmAccepts_append, pmAccepts]
        have hrec := ih ⟨t, d⟩ buffer state hfr htr
        rw [e2]
        constructor
        · rw [List.chain'_cons']
          refine ⟨?_, hrec.1⟩
          intro y hy
          rcases hrec.2 y hy with h0 | hgt
          · exact absurd h0 (by simpa using (by omega : ¬ t = 0))
          · exact hgt
        · intro a ha
          simp only [List.head?_cons, Option.mem_def, Option.some.injEq] at ha
          subst ha
          exact hg
      · have e1 : Analyser.analyse_data_buffer prb t scan st d buffer
            Mode.normal state false =
            ⟨st, buffer, Mode.normal, state, false, false, []⟩ := by
          unfold Analyser.analyse_data_buffer
          simp [hd.1, hd.2, hg]
        have e2 : pmAccepts (feedChunks prb scan st buffer Mode.normal state
              ((t, d) :: rest)).2 =
            pmAccepts (feedChunks prb scan st buffer Mode.normal
              state rest).2 := by
          simp [feedChunks, e1, pmAccepts]
        have hrec := ih st buffer state hfr htr
        rw [e2]
        exact hrec

/-- Claim C7: a completed streaming pm frame is parsed and published
iff no frame has been accepted yet (`_pmstamp == 0`) or more than the
scan period has elapsed since the last acceptance, and is discarded
otherwise; consecutive acceptances are therefore always more than one
scan period apart; and ten full frames at 100 ms intervals under a
500 ms scan period yield exactly two publications (within the claimed
two or three). -/
theorem c7_pm_rate_limit :
    (∀ prb now scan (st : PmState) (d buffer : List Nat) (mode : Mode)
        (state : String) (sessReq : Bool),
      Analyser.is_pm_response d = true → endsCRLF d = true →
      ((st.pmstamp = 0 ∨ now - st.pmstamp > scan) →
        Analyser.analyse_data_buffer prb now scan st d buffer mode state
            sessReq =
          ⟨⟨now, d⟩, buffer, Mode.normal, state, false, false,
            [AEv.parsePm d]⟩) ∧
      (¬ (st.pmstamp = 0 ∨ now - st.pmstamp > scan) →
        Analyser.analyse_data_buffer prb now scan st d buffer mode state
            sessReq =
          ⟨st, buffer, Mode.normal, state, false, false, []⟩)) ∧
    (∀ prb scan (frames : List (Int × List Nat)) (st : PmState)
        (buffer : List Nat) (state : String),
      (∀ p ∈ frames, Analyser.is_pm_response p.2 = true ∧ endsCRLF p.2 = true) →
      (∀ p ∈ frames, 0 < p.1) →
      List.Chain' (fun a b => b.1 - a.1 > scan)
        (pmAccepts (feedChunks prb scan st buffer Mode.normal state frames).2)) ∧
    ((pmAccepts (feedChunks prbNone 500 ⟨0, []⟩ [] Mode.normal ""
        c7Frames).2).length = 2 ∧ ((2 : Nat) = 2 ∨ (2 : Nat) = 3)) := by
  refine ⟨?_, ?_, by decide, Or.inl rfl⟩
  · intro prb now scan st d buffer mode state sessReq hpm hend
    constructor
    · intro hg
      unfold Analyser.analyse_data_buffer
      simp [hpm, hend, hg]
    · intro hg
      unfold Analyser.analyse_data_buffer
      simp [hpm, hend, hg]
  · intro prb scan frames st buffer state hf ht
    exact (feedChunks_pm_chain prb scan frames st buffer state hf ht).1

/-- Witness for C7: acceptance of a first full frame with a fresh
state, and discard of a second frame arriving within the scan
period. -/
theorem c7_pm_rate_limit_witness :
    Analyser.analyse_data_buffer prbNone 1000 500 ⟨0, []⟩ pmFullFrame []
        Mode.normal "" false =
      ⟨⟨1000, pmFullFrame⟩, [], Mode.normal, "", false, false,
        [AEv.parsePm pmFullFrame]⟩ ∧
    Analyser.analyse_data_buffer prbNone 1100 500 ⟨1000, pmFullFrame⟩
        pmFullFrame [] Mode.normal "" false =
      ⟨⟨1000, pmFullFrame⟩, [], Mode.normal, "", false, false, []⟩ :=
  ⟨(c7_pm_rate_limit.1 prbNone 1000 500 ⟨0, []⟩ pmFullFrame [] Mode.normal ""
      false (by decide) (by decide)).1 (Or.inl rfl),
   (c7_pm_rate_limit.1 prbNone 1100 500 ⟨1000, pmFullFrame⟩ pmFullFrame []
      Mode.normal "" false (by decide) (by decide)).2 (by decide)⟩

/-- Claim C8 (counterexample): a non-streaming boiler chunk whose most
recent requester is the auxiliary caller is sent to the auxiliary
socket and then also echoed to the IGW socket, so it is not routed to
the last caller alone. -/
theorem c8_counterexample :
    routeResponse true (strBytes "$ack\r\n") 2 =
      [Dest.service2, Dest.service1] ∧
    routeResponse true (strBytes "$ack\r\n") 2 ≠ [Dest.service2] :=
  ⟨by rfl, by decide⟩

/-- Claim C8 (amended): a chunk beginning with `pm` is sent to the IGW
(service1) socket regardless of the registered caller; a non-`pm` chunk
goes to service1 when the last request came from the IGW, and to
service2 followed by an echo to service1 when it came from the
auxiliary caller. -/
theorem c8_routing (data : List Nat) (caller : Nat) :
    (startsWith data (strBytes "pm") = true →
      routeResponse true data caller = [Dest.service1]) ∧
    (startsWith data (strBytes "pm") = false → caller = 1 →
      routeResponse true data caller = [Dest.service1]) ∧
    (startsWith data (strBytes "pm") = false → caller = 2 →
      routeResponse true data caller = [Dest.service2, Dest.service1]) := by
  refine ⟨?_, ?_, ?_⟩
  · intro h
    simp [routeResponse, h]
  · intro h hc
    simp [routeResponse, h, hc]
  · intro h hc
    simp [routeResponse, h, hc]

/-- Witness for the amended C8: a streaming chunk with the auxiliary
registered as last caller still goes to service1 only; an IGW-requested
acknowledgement goes to service1. -/
theorem c8_routing_witness :
    routeResponse true (strBytes "pm 1 2\r\n") 2 = [Dest.service1] ∧
    routeResponse true (strBytes "$ack\r\n") 1 = [Dest.service1] :=
  ⟨(c8_routing (strBytes "pm 1 2\r\n") 2).1 (by decide),
   (c8_routing (strBytes "$ack\r\n") 1).2.1 (by decide) rfl⟩

/-- Claim C9 (evaluation at the failing inputs): the request classifier
decodes with ASCII and the gateway relay decodes with UTF-8, so both
raise `UnicodeDecodeError` on valid Latin-1 payloads containing the
byte 0xE9 (`é`), contradicting the Latin-1-everywhere requirement. -/
theorem c9_decode_errors :
    Analyser.parse_request (strBytes "Réduire\r\n") = Except.error () ∧
    GatewayListenerSender.handle_data (strBytes "SN:039é\r\n") =
      Except.error () ∧
    (strBytes "Réduire\r\n").all (· < 256) = true ∧
    (strBytes "SN:039é\r\n").all (· < 256) = true :=
  ⟨by rfl, by rfl, by decide, by decide⟩
